import Mathlib

/-!
# Verification of the TUS firewall test-suite client core

Shallow embedding of the client simulation core of the TUS-Firewall-Test-Suite
repository (`src/client/player_stats.py`, `src/client/game_client.py`,
`src/client/client_manager.py`), together with proofs and refutations of the
specification's claims about it.

Modelling conventions:
* wall-clock instants and latencies are rationals (`ℚ`); Python floats carry no
  overflow-relevant structure in this code, only ordering and field arithmetic;
* each Python method that touches the network is embedded as a pure function
  over an explicit environment describing the network's behaviour during that
  call (did `sendto` raise, what `connect_ex` returned, …);
* Python's dynamic typing at `record_ping` is kept: the recorded value is an
  `Option ℚ` because the runtime happily stores `None` in both lists.
-/

namespace TusFw

/-- One entry of `ping_history`: `{'timestamp': …, 'ping_ms': …}` as appended by
`PlayerStats.record_ping` (`player_stats.py`, lines 41–44).  The stored value is
whatever was passed to `record_ping`, hence an `Option ℚ`. -/
structure PingEntry where
  timestamp : ℚ
  ping_ms : Option ℚ
  deriving Repr, DecidableEq

/-- One entry of `throughput_history` as appended by
`PlayerStats.record_throughput_snapshot` (`player_stats.py`, lines 58–63). -/
structure ThroughputSnap where
  timestamp : ℚ
  packets_per_sec : ℚ
  total_packets : ℕ
  total_bytes : ℕ
  deriving Repr, DecidableEq

/-- The `PlayerStats` dataclass (`player_stats.py`, lines 8–36) after
`__post_init__` has replaced the `None` defaults by empty lists and fixed
`start_time`. -/
structure PlayerStats where
  player_id : String
  tcp_connections : ℕ := 0
  tcp_failed : ℕ := 0
  udp_packets_sent : ℕ := 0
  udp_responses : ℕ := 0
  udp_timeouts : ℕ := 0
  total_bytes_sent : ℕ := 0
  total_bytes_received : ℕ := 0
  errors : List String := []
  ping_times : List (Option ℚ) := []
  ping_history : List PingEntry := []
  throughput_history : List ThroughputSnap := []
  start_time : ℚ
  deriving Repr, DecidableEq

/-- A fresh `PlayerStats` as produced by `PlayerStats(player_id)` followed by
`__post_init__` at wall-clock instant `t0`. -/
def PlayerStats.init (pid : String) (t0 : ℚ) : PlayerStats :=
  { player_id := pid, start_time := t0 }

/-- `PlayerStats.record_ping` (`player_stats.py`, lines 38–44): append the value
to `ping_times` and unconditionally append a `{timestamp, ping_ms}` entry to
`ping_history`, the timestamp relative to `start_time`.  `now` is the value
`time.time()` returns during the call. -/
def PlayerStats.record_ping (s : PlayerStats) (now : ℚ) (ping_ms : Option ℚ) :
    PlayerStats :=
  { s with
    ping_times := s.ping_times ++ [ping_ms]
    ping_history := s.ping_history ++ [⟨now - s.start_time, ping_ms⟩] }

/-- `self.stats.ping_times.append(None)` as performed by
`GameClient.ping_server` when every ping attempt failed
(`game_client.py`, line 79). -/
def PlayerStats.append_failed_ping (s : PlayerStats) : PlayerStats :=
  { s with ping_times := s.ping_times ++ [none] }

/-- `PlayerStats.record_throughput_snapshot` (`player_stats.py`, lines 46–63).
If a previous snapshot exists, the rate is `packet_diff / time_diff` guarded by
`time_diff > 0`; otherwise it is `udp_packets_sent / current_time` guarded by
`current_time > 0`.  `now` is the value `time.time()` returns during the call.
Python's `int - int` may be negative, so the packet difference lives in `ℤ`. -/
def PlayerStats.record_throughput_snapshot (s : PlayerStats) (now : ℚ) :
    PlayerStats :=
  let current_time : ℚ := now - s.start_time
  let packets_per_sec : ℚ :=
    match s.throughput_history.getLast? with
    | some last =>
        let time_diff : ℚ := current_time - last.timestamp
        let packet_diff : ℤ := (s.udp_packets_sent : ℤ) - (last.total_packets : ℤ)
        if 0 < time_diff then (packet_diff : ℚ) / time_diff else 0
    | none =>
        if 0 < current_time then (s.udp_packets_sent : ℚ) / current_time else 0
  { s with
    throughput_history := s.throughput_history ++
      [⟨current_time, packets_per_sec, s.udp_packets_sent, s.total_bytes_sent⟩] }

/-- The rate stored in the most recent throughput snapshot, if any. -/
def PlayerStats.lastSnapshotRate (s : PlayerStats) : Option ℚ :=
  (s.throughput_history.getLast?).map ThroughputSnap.packets_per_sec

/-! ## Traffic generator: `_send_udp_packet` and `_test_tcp_connection`

Each call is embedded as a pure function over an outcome parameter describing
what the network did during that call.  The `sockOpened`/`sockClosed` booleans
record whether the call created an OS socket and whether it explicitly closed
it before returning. -/

/-- What happened inside one `GameClient._send_udp_packet` call
(`game_client.py`, lines 433–451). -/
inductive UdpSendOutcome
  | ok
  | sendRaised (e : String)
  | createRaised (e : String)
  deriving Repr, DecidableEq

/-- Result of one embedded socket activity. -/
structure ActivityResult where
  stats : PlayerStats
  sockOpened : Bool
  sockClosed : Bool
  deriving Repr, DecidableEq

/-- `GameClient._send_udp_packet(port, data)` (`game_client.py`, lines
433–451).  On success the three counters are bumped and the socket closed; on
an exception (`sendRaised`: raised by `sendto` after the socket was created;
`createRaised`: raised creating the socket) the handler only appends
`"UDP {port}: {e}"` to `errors` — there is no `close` call and no `finally` on
that path. -/
def sendUdpPacket (s : PlayerStats) (port : ℕ) (data : String) :
    UdpSendOutcome → ActivityResult
  | .ok =>
      ⟨{ s with
          udp_packets_sent := s.udp_packets_sent + 1
          total_bytes_sent := s.total_bytes_sent + data.utf8ByteSize
          udp_responses := s.udp_responses + 1 },
        true, true⟩
  | .sendRaised e =>
      ⟨{ s with errors := s.errors ++ ["UDP " ++ toString port ++ ": " ++ e] },
        true, false⟩
  | .createRaised e =>
      ⟨{ s with errors := s.errors ++ ["UDP " ++ toString port ++ ": " ++ e] },
        false, false⟩

/-- What happened inside one `GameClient._test_tcp_connection` call
(`game_client.py`, lines 405–431): `connected` — `connect_ex` returned 0 and
the subsequent `send` succeeded; `refused` — `connect_ex` returned nonzero;
`createRaised` — socket creation raised, no socket exists; `connectRaised` —
`connect_ex` raised; `sendRaised` — `connect_ex` returned 0 (so
`tcp_connections` was already incremented) and then `send` raised. -/
inductive TcpOutcome
  | connected
  | refused
  | createRaised (e : String)
  | connectRaised (e : String)
  | sendRaised (e : String)
  deriving Repr, DecidableEq

/-- The payload `f"Player{player_id} TCP test to port {port}"` sent on a
successful TCP connect (`game_client.py`, line 417), measured in encoded
bytes. -/
def tcpTestDataLen (pid : String) (port : ℕ) : ℕ :=
  ("Player" ++ pid ++ " TCP test to port " ++ toString port).utf8ByteSize

/-- `GameClient._test_tcp_connection()` for a drawn port (`game_client.py`,
lines 405–431).  The `except` handler increments `tcp_failed` and appends
`"TCP {port}: {e}"` whether or not `tcp_connections` was already incremented,
and closes no socket. -/
def testTcpConnection (s : PlayerStats) (port : ℕ) : TcpOutcome → ActivityResult
  | .connected =>
      ⟨{ s with
          tcp_connections := s.tcp_connections + 1
          total_bytes_sent := s.total_bytes_sent + tcpTestDataLen s.player_id port
          total_bytes_received :=
            s.total_bytes_received + tcpTestDataLen s.player_id port },
        true, true⟩
  | .refused =>
      ⟨{ s with tcp_failed := s.tcp_failed + 1 }, true, true⟩
  | .createRaised e =>
      ⟨{ s with
          tcp_failed := s.tcp_failed + 1
          errors := s.errors ++ ["TCP " ++ toString port ++ ": " ++ e] },
        false, false⟩
  | .connectRaised e =>
      ⟨{ s with
          tcp_failed := s.tcp_failed + 1
          errors := s.errors ++ ["TCP " ++ toString port ++ ": " ++ e] },
        true, false⟩
  | .sendRaised e =>
      ⟨{ s with
          tcp_connections := s.tcp_connections + 1
          tcp_failed := s.tcp_failed + 1
          errors := s.errors ++ ["TCP " ++ toString port ++ ": " ++ e] },
        true, false⟩

/-! ## UT packet-size model (`GameClient.__init__`, `_send_gameplay_packets`) -/

/-- The four UT network-model parameters read from the environment in
`GameClient.__init__` (`game_client.py`, lines 21–24). -/
structure UTSpecs where
  ut_udp_overhead : ℕ
  ut_tickrate : ℕ
  ut_default_netspeed : ℕ
  ut_max_netspeed : ℕ
  deriving Repr, DecidableEq

/-- `self.ut_default_payload = (self.ut_default_netspeed // self.ut_tickrate)
- self.ut_udp_overhead` (`game_client.py`, line 27); Python integer
subtraction can go negative, so the result lives in `ℤ`. -/
def utDefaultPayload (c : UTSpecs) : ℤ :=
  ((c.ut_default_netspeed / c.ut_tickrate : ℕ) : ℤ) - (c.ut_udp_overhead : ℤ)

/-- `self.ut_max_payload = (self.ut_max_netspeed // self.ut_tickrate) -
self.ut_udp_overhead` (`game_client.py`, line 28). -/
def utMaxPayload (c : UTSpecs) : ℤ :=
  ((c.ut_max_netspeed / c.ut_tickrate : ℕ) : ℤ) - (c.ut_udp_overhead : ℤ)

/-- The weighted `netspeed_setting` draw in `_send_gameplay_packets`
(`game_client.py`, lines 333–336); `varied r` carries the value returned by
`random.randint(self.ut_default_payload, self.ut_max_payload)` on the
`'variable'` branch. -/
inductive NetspeedSetting
  | defaultSpeed
  | high
  | varied (r : ℤ)
  deriving Repr, DecidableEq

/-- `target_payload_size` as selected in `_send_gameplay_packets`
(`game_client.py`, lines 338–346). -/
def targetPayloadSize (c : UTSpecs) : NetspeedSetting → ℤ
  | .defaultSpeed => utDefaultPayload c
  | .high => utMaxPayload c
  | .varied r => r

/-- The contract `random.randint(a, b)` gives for the `'variable'` branch:
the drawn value is within the inclusive bounds.  The other two settings carry
no draw. -/
def NetspeedSetting.validDraw (c : UTSpecs) : NetspeedSetting → Prop
  | .varied r => utDefaultPayload c ≤ r ∧ r ≤ utMaxPayload c
  | _ => True

/-! ## Shutdown-listener port assignment (`_setup_shutdown_socket`) -/

/-- Python's `int(s)` restricted to the id strings this program produces
(non-empty strings of decimal digits): `none` on the empty string or on any
non-digit character, otherwise the decimal value.  The id string is modelled
as its character list. -/
def parseDecimal? (cs : List Char) : Option ℕ :=
  if cs.isEmpty then none
  else
    cs.foldl
      (fun acc c =>
        match acc with
        | some n => if c.isDigit then some (n * 10 + (c.toNat - 48)) else none
        | none => none)
      (some 0)

/-- The `player_num` parsing in `GameClient._setup_shutdown_socket`
(`game_client.py`, lines 104–110): an id containing `'-'` is split at the
first `'-'` and the prefix parsed with `int`, otherwise the whole id is
parsed; a parse failure falls back to `1`.  Ids produced by the fleet
coordinator (`client_manager.py`, line 37) are `f"{player_id}-{connection_id}"`
with positive decimal integers. -/
def parsePlayerNum (pid : List Char) : ℕ :=
  if pid.any (· == '-') then
    (parseDecimal? (pid.takeWhile (· ≠ '-'))).getD 1
  else
    (parseDecimal? pid).getD 1

/-- `listen_port = 7778 + (player_num % 10)` (`game_client.py`, line 112). -/
def shutdownListenPort (pid : List Char) : ℕ :=
  7778 + parsePlayerNum pid % 10

/-! ## Connection driver: the `simulate_game_traffic` loop

The loop (`game_client.py`, lines 237–287) is embedded as a step function over
per-iteration environments.  An `IterEnv` fixes, for one iteration: the value
of `self.received_shutdown` when the iteration begins, which of the three
interval guards (`now - last_ping > ping_interval`, throughput, server check)
fire, and what `is_server_available()` would return if called.  The pieces of
work an iteration actually performs are logged as `WorkItem`s so the priority
order is observable. -/

/-- One piece of work the loop body can perform, in source order: a latency
ping, a throughput snapshot, an availability probe, a traffic activity. -/
inductive WorkItem
  | ping
  | snapshot
  | probe
  | activity
  deriving Repr, DecidableEq

/-- The environment one loop iteration runs in. -/
structure IterEnv where
  shutdown : Bool
  pingDue : Bool
  snapshotDue : Bool
  checkDue : Bool
  serverAvailable : Bool
  deriving Repr, DecidableEq

/-- `GameClient._check_server_status` (`game_client.py`, lines 185–194):
reset the consecutive-failure counter on success, increment it on failure. -/
def checkServerStatus (consecutive_failures : ℕ) (available : Bool) : ℕ :=
  if available then 0 else consecutive_failures + 1

/-- How one loop iteration ends: break at the shutdown check, break at the
failure threshold, or fall through to the next iteration carrying the updated
consecutive-failure counter. -/
inductive StepOutcome
  | graceful
  | unreachable
  | continues (failures : ℕ)
  deriving Repr, DecidableEq

/-- One iteration of the `while self.running` body (`game_client.py`, lines
237–287): the `received_shutdown` check comes first and breaks before any
work; then the ping, snapshot and availability blocks run in order; reaching
`max_consecutive_failures` inside the availability block breaks before any
traffic activity; otherwise a traffic activity runs. -/
def stepIter (maxF failures : ℕ) (env : IterEnv) : StepOutcome × List WorkItem :=
  if env.shutdown then (.graceful, [])
  else
    let w := (if env.pingDue then [WorkItem.ping] else []) ++
             (if env.snapshotDue then [WorkItem.snapshot] else [])
    if env.checkDue then
      let f2 := checkServerStatus failures env.serverAvailable
      if maxF ≤ f2 then (.unreachable, w ++ [.probe])
      else (.continues f2, w ++ [.probe, .activity])
    else (.continues failures, w ++ [.activity])

/-- The reason the loop reports when it terminates: the graceful-shutdown
break prints `REASON: Graceful server shutdown` and the `finally` block then
reports graceful (since `received_shutdown` is true); the threshold break
leads the `finally` block to report `REASON: Server unreachable`. -/
inductive TermReason
  | graceful
  | unreachable
  deriving Repr, DecidableEq

/-- Run the driver loop over a finite trace of iteration environments,
starting from a given consecutive-failure counter.  Returns the termination
reason (`none` if the trace ran out while still `Running`) and the
concatenated log of work performed. -/
def runDriver (maxF : ℕ) : ℕ → List IterEnv → Option TermReason × List WorkItem
  | _, [] => (none, [])
  | failures, env :: rest =>
    match stepIter maxF failures env with
    | (.graceful, w) => (some .graceful, w)
    | (.unreachable, w) => (some .unreachable, w)
    | (.continues f2, w) =>
      let r := runDriver maxF f2 rest
      (r.1, w ++ r.2)

/-- An iteration environment in which the availability check fires and the
prober finds the server unresponsive, with no shutdown signal. -/
def failProbeEnv : IterEnv :=
  { shutdown := false, pingDue := false, snapshotDue := false,
    checkDue := true, serverAvailable := false }

/-! ## The operations a driver performs on its own `PlayerStats`

Every mutation of a connection's `PlayerStats` in `game_client.py` happens
through one of the following operations, each executed by that connection's
own driver (single-writer): a UDP send (`_send_udp_packet`, reached from
query/join/gameplay/heartbeat activities), a TCP probe
(`_test_tcp_connection`), a successful ping recording
(`ping_server` → `record_ping`, always called with a measured float RTT), a
wholly failed ping attempt (`ping_server` appends `None` to `ping_times`), a
throughput snapshot, and the activity-level error append in the simulate
loop's `except` arm. -/
inductive ClientOp
  | udpSend (port : ℕ) (data : String) (outcome : UdpSendOutcome)
  | tcpProbe (port : ℕ) (outcome : TcpOutcome)
  | pingSuccess (now rtt : ℚ)
  | pingFailure
  | snapshot (now : ℚ)
  | activityError (msg : String)
  deriving Repr, DecidableEq

/-- Apply one driver operation to the connection's statistics. -/
def applyOp (s : PlayerStats) : ClientOp → PlayerStats
  | .udpSend port data outcome => (sendUdpPacket s port data outcome).stats
  | .tcpProbe port outcome => (testTcpConnection s port outcome).stats
  | .pingSuccess now rtt => s.record_ping now (some rtt)
  | .pingFailure => s.append_failed_ping
  | .snapshot now => s.record_throughput_snapshot now
  | .activityError msg => { s with errors := s.errors ++ [msg] }

/-- A whole run of a driver over its statistics: fold the operation sequence
it performed. -/
def runOps (s : PlayerStats) (ops : List ClientOp) : PlayerStats :=
  ops.foldl applyOp s

/-- `GameClientManager._calculate_udp_success_rate`
(`client_manager.py`, lines 101–104) over the fleet's clients:
`total_udp_responses / total_udp_packets * 100` when any packet was sent,
otherwise `0`. -/
def udpSuccessRate (clients : List PlayerStats) : ℚ :=
  let totalPackets : ℕ := (clients.map PlayerStats.udp_packets_sent).sum
  let totalResponses : ℕ := (clients.map PlayerStats.udp_responses).sum
  if 0 < totalPackets then (totalResponses : ℚ) / (totalPackets : ℚ) * 100 else 0

/-- Alignment of the two ping series: the latencies stored in `ping_history`
are exactly the non-null entries of `ping_times`, in order. -/
def pingSeriesAligned (s : PlayerStats) : Prop :=
  s.ping_history.map PingEntry.ping_ms = s.ping_times.filter Option.isSome

/-! ## Claims -/

/-- C1: in every iteration of the driver loop, the `received_shutdown` check
comes before any ping, snapshot, availability or traffic work; an iteration
that begins with `shutdown_received = true` terminates the loop at once with
reason graceful and performs no work — even when the availability-failure
threshold would be reached in the same iteration — and the driver never
reports unreachable in that situation. -/
theorem graceful_shutdown_precedence (maxF failures : ℕ) (env : IterEnv)
    (rest : List IterEnv) (h : env.shutdown = true) :
    runDriver maxF failures (env :: rest) = (some .graceful, []) ∧
    (runDriver maxF failures (env :: rest)).1 ≠ some .unreachable := by
  have hstep : stepIter maxF failures env = (.graceful, []) := by
    simp [stepIter, h]
  constructor
  · simp [runDriver, hstep]
  · simp [runDriver, hstep]

/-- C1 witness: a concrete iteration in which the shutdown flag is set while
the threshold (`maxF = 1`) is simultaneously reached by the failing probe:
the driver still reports graceful. -/
theorem graceful_shutdown_precedence_witness :
    runDriver 1 0
      [{ shutdown := true, pingDue := true, snapshotDue := true,
         checkDue := true, serverAvailable := false }] =
      (some .graceful, []) ∧
    (runDriver 1 0
      [{ shutdown := true, pingDue := true, snapshotDue := true,
         checkDue := true, serverAvailable := false }]).1 ≠ some .unreachable :=
  graceful_shutdown_precedence 1 0
    { shutdown := true, pingDue := true, snapshotDue := true,
      checkDue := true, serverAvailable := false } [] rfl

/-- C2: with the consecutive-failure threshold 3 and an always-failing
availability prober (no shutdown signal), the driver terminates with reason
unreachable after exactly three probe cycles: after one or two failing cycles
it is still running, the third failing cycle ends the loop whatever the rest
of the trace holds, and in total exactly three probes were performed; each
failed probe increments the counter by one and any successful probe resets it
to zero. -/
theorem failure_threshold_termination (rest : List IterEnv) (f : ℕ) :
    runDriver 3 0 (failProbeEnv :: failProbeEnv :: failProbeEnv :: rest) =
      (some .unreachable,
        [.probe, .activity, .probe, .activity, .probe]) ∧
    ([WorkItem.probe, .activity, .probe, .activity, .probe].count .probe = 3) ∧
    (runDriver 3 0 [failProbeEnv]).1 = none ∧
    (runDriver 3 0 [failProbeEnv]).2.count .probe = 1 ∧
    (runDriver 3 0 [failProbeEnv, failProbeEnv]).1 = none ∧
    (runDriver 3 0 [failProbeEnv, failProbeEnv]).2.count .probe = 2 ∧
    checkServerStatus f false = f + 1 ∧
    checkServerStatus f true = 0 := by
  refine ⟨rfl, by decide, by decide, by decide, by decide, by decide, ?_, ?_⟩
  · simp [checkServerStatus]
  · simp [checkServerStatus]

/-- C3: the code violates the always-close contract.  When `sendto` raises in
`_send_udp_packet`, the error is recorded as a string and the call returns
normally (the loop is not stopped), but the socket opened for the operation is
never closed — the `except` handler has no `close` and there is no `finally`;
likewise in `_test_tcp_connection` when `connect_ex` raises. -/
theorem socket_not_closed_on_failure_path (s : PlayerStats)
    (port : ℕ) (data e : String) :
    (sendUdpPacket s port data (.sendRaised e)).sockOpened = true ∧
    (sendUdpPacket s port data (.sendRaised e)).sockClosed = false ∧
    (sendUdpPacket s port data (.sendRaised e)).stats.errors =
      s.errors ++ ["UDP " ++ toString port ++ ": " ++ e] ∧
    (testTcpConnection s port (.connectRaised e)).sockOpened = true ∧
    (testTcpConnection s port (.connectRaised e)).sockClosed = false ∧
    (testTcpConnection s port (.connectRaised e)).stats.errors =
      s.errors ++ ["TCP " ++ toString port ++ ": " ++ e] ∧
    (sendUdpPacket s port data .ok).sockClosed = true ∧
    (testTcpConnection s port .connected).sockClosed = true :=
  ⟨rfl, rfl, rfl, rfl, rfl, rfl, rfl, rfl⟩

/-- C4 counterexample: calling `record_ping` with a `None` value does append
to `ping_history` — the append is unconditional in the code — so the claimed
"grows iff the value is non-none" fails at the concrete call
`record_ping(None)` on a fresh stats object. -/
theorem record_ping_none_grows_history :
    ((PlayerStats.init "1" 0).record_ping 5 none).ping_history.length = 1 ∧
    ((PlayerStats.init "1" 0).record_ping 5 none).ping_times = [none] ∧
    (PlayerStats.init "1" 0).ping_history.length = 0 :=
  ⟨rfl, rfl, rfl⟩

/-- C4 amended: every `record_ping(v)` call appends exactly one entry holding
`v` to `ping_times` and unconditionally appends one
`(timestamp-relative-to-start, v)` entry to `ping_history`, whether or not `v`
is none; `ping_history` receives only successful measurements because the
driver invokes `record_ping` only on success, while a wholly failed ping
attempt appends `None` directly to `ping_times` — still occupying a slot —
and leaves `ping_history` unchanged. -/
theorem record_ping_amended (s : PlayerStats) (now rtt : ℚ) (v : Option ℚ) :
    (s.record_ping now v).ping_times = s.ping_times ++ [v] ∧
    (s.record_ping now v).ping_history =
      s.ping_history ++ [⟨now - s.start_time, v⟩] ∧
    (applyOp s (.pingSuccess now rtt)).ping_times = s.ping_times ++ [some rtt] ∧
    (applyOp s (.pingSuccess now rtt)).ping_history =
      s.ping_history ++ [⟨now - s.start_time, some rtt⟩] ∧
    (applyOp s .pingFailure).ping_times = s.ping_times ++ [none] ∧
    (applyOp s .pingFailure).ping_history = s.ping_history :=
  ⟨rfl, rfl, rfl, rfl, rfl, rfl⟩

/-- Each driver operation preserves the alignment of the two ping series. -/
theorem applyOp_pingSeriesAligned (s : PlayerStats) (op : ClientOp)
    (h : pingSeriesAligned s) : pingSeriesAligned (applyOp s op) := by
  cases op with
  | udpSend port data outcome =>
      cases outcome <;>
        simpa [pingSeriesAligned, applyOp, sendUdpPacket] using h
  | tcpProbe port outcome =>
      cases outcome <;>
        simpa [pingSeriesAligned, applyOp, testTcpConnection] using h
  | pingSuccess now rtt =>
      simp only [pingSeriesAligned, applyOp, PlayerStats.record_ping,
        List.filter_append, List.map_append]
      simp [pingSeriesAligned] at h
      simp [h]
  | pingFailure =>
      simp only [pingSeriesAligned, applyOp, PlayerStats.append_failed_ping,
        List.filter_append, List.map_append]
      simp [pingSeriesAligned] at h
      simp [h]
  | snapshot now =>
      simpa [pingSeriesAligned, applyOp, PlayerStats.record_throughput_snapshot]
        using h
  | activityError msg =>
      simpa [pingSeriesAligned, applyOp] using h

/-- A whole driver run preserves the alignment of the two ping series. -/
theorem runOps_pingSeriesAligned (s : PlayerStats) (ops : List ClientOp)
    (h : pingSeriesAligned s) : pingSeriesAligned (runOps s ops) := by
  induction ops generalizing s with
  | nil => exact h
  | cons op rest ih => exact ih (applyOp s op) (applyOp_pingSeriesAligned s op h)

/-- C5: after any sequence of recording operations performed by a connection's
driver on a fresh statistics object — successful pings through `record_ping`,
failed attempts appended as `None`, plus any interleaving of the other
statistics operations — the latencies in `ping_history` are exactly the
non-null entries of `ping_times` in order, and in particular
`len(ping_history) ≤ len(ping_times)`. -/
theorem ping_series_invariant (pid : String) (t0 : ℚ) (ops : List ClientOp) :
    pingSeriesAligned (runOps (PlayerStats.init pid t0) ops) ∧
    (runOps (PlayerStats.init pid t0) ops).ping_history.length ≤
      (runOps (PlayerStats.init pid t0) ops).ping_times.length := by
  have ha : pingSeriesAligned (runOps (PlayerStats.init pid t0) ops) :=
    runOps_pingSeriesAligned _ ops (by simp [pingSeriesAligned, PlayerStats.init])
  refine ⟨ha, ?_⟩
  calc (runOps (PlayerStats.init pid t0) ops).ping_history.length
      = ((runOps (PlayerStats.init pid t0) ops).ping_history.map
          PingEntry.ping_ms).length := (List.length_map _ _).symm
    _ = ((runOps (PlayerStats.init pid t0) ops).ping_times.filter
          Option.isSome).length := by rw [ha]
    _ ≤ (runOps (PlayerStats.init pid t0) ops).ping_times.length :=
        List.length_filter_le _ _

/-- The UT network parameters at their environment-variable defaults
(`game_client.py`, lines 21–24): overhead 28, tickrate 85, default netspeed
40000, max netspeed 100000. -/
def utEnvDefaults : UTSpecs :=
  { ut_udp_overhead := 28, ut_tickrate := 85,
    ut_default_netspeed := 40000, ut_max_netspeed := 100000 }

/-- C6: the default target gameplay payload is
`floor(default_netspeed / tickrate) - udp_overhead` and the maximum is
`floor(max_netspeed / tickrate) - udp_overhead`; at the default parameters
(28, 85, 40000, 100000) these are 442 and 1148 bytes, and for any parameters
every gameplay packet's target size is the default payload, the max payload,
or a value drawn between them inclusive. -/
theorem packet_size_model (c : UTSpecs) (setting : NetspeedSetting)
    (h : setting.validDraw c) :
    utDefaultPayload utEnvDefaults = 442 ∧
    utMaxPayload utEnvDefaults = 1148 ∧
    (targetPayloadSize c setting = utDefaultPayload c ∨
      targetPayloadSize c setting = utMaxPayload c ∨
      (utDefaultPayload c ≤ targetPayloadSize c setting ∧
        targetPayloadSize c setting ≤ utMaxPayload c)) := by
  refine ⟨by decide, by decide, ?_⟩
  cases setting with
  | defaultSpeed => exact Or.inl rfl
  | high => exact Or.inr (Or.inl rfl)
  | varied r => exact Or.inr (Or.inr h)

/-- C6 witness: the model at the default parameters with a concrete variable
draw of 500 bytes, inside the inclusive bounds. -/
theorem packet_size_model_witness :
    utDefaultPayload utEnvDefaults = 442 ∧
    utMaxPayload utEnvDefaults = 1148 ∧
    (targetPayloadSize utEnvDefaults (.varied 500) =
        utDefaultPayload utEnvDefaults ∨
      targetPayloadSize utEnvDefaults (.varied 500) =
        utMaxPayload utEnvDefaults ∨
      (utDefaultPayload utEnvDefaults ≤
          targetPayloadSize utEnvDefaults (.varied 500) ∧
        targetPayloadSize utEnvDefaults (.varied 500) ≤
          utMaxPayload utEnvDefaults)) :=
  packet_size_model utEnvDefaults (.varied 500) ⟨by decide, by decide⟩

/-- C7: (i) two consecutive snapshots with no packet sends between them give
a second snapshot whose rate is exactly 0 — no division error, no negative
rate — for any prior history; (ii) the first snapshot ever divides the
cumulative packet count by the elapsed time since connection start, guarding
zero elapsed time to 0; (iii) a later snapshot whose inter-snapshot time
difference is zero or negative stores rate 0 instead of dividing, even when
sends happened in between. -/
theorem snapshot_idempotence_and_division_safety (s : PlayerStats)
    (tA tB tC tD tE : ℚ) (n : ℕ)
    (hempty : s.throughput_history = []) (hle : tE ≤ tD) :
    ((s.record_throughput_snapshot tA).record_throughput_snapshot
        tB).lastSnapshotRate = some 0 ∧
    (s.record_throughput_snapshot tC).lastSnapshotRate =
      some (if 0 < tC - s.start_time
        then (s.udp_packets_sent : ℚ) / (tC - s.start_time) else 0) ∧
    ({ s.record_throughput_snapshot tD with
        udp_packets_sent := n }.record_throughput_snapshot
        tE).lastSnapshotRate = some 0 := by
  refine ⟨?_, ?_, ?_⟩
  · simp [PlayerStats.record_throughput_snapshot, PlayerStats.lastSnapshotRate,
      List.getLast?_concat]
  · simp [PlayerStats.record_throughput_snapshot, PlayerStats.lastSnapshotRate,
      List.getLast?_concat, hempty]
  · simp only [PlayerStats.record_throughput_snapshot,
      PlayerStats.lastSnapshotRate, List.getLast?_concat]
    simp
    intro hlt
    exact absurd hle (not_le.mpr hlt)

/-- C7 witness: a fresh connection snapshotted at t=2 then t=3 with no sends
has second rate 0; its first snapshot at t=5 uses the elapsed-time formula;
and a pair of snapshots taken at the same instant t=6 with 20 packets sent in
between still stores rate 0. -/
theorem snapshot_idempotence_witness :
    (((PlayerStats.init "1" 0).record_throughput_snapshot 2
        ).record_throughput_snapshot 3).lastSnapshotRate = some 0 ∧
    ((PlayerStats.init "1" 0).record_throughput_snapshot 5).lastSnapshotRate =
      some (if 0 < (5 : ℚ) - (PlayerStats.init "1" 0).start_time
        then ((PlayerStats.init "1" 0).udp_packets_sent : ℚ) /
          ((5 : ℚ) - (PlayerStats.init "1" 0).start_time) else 0) ∧
    ({ (PlayerStats.init "1" 0).record_throughput_snapshot 6 with
        udp_packets_sent := 20 }.record_throughput_snapshot
        6).lastSnapshotRate = some 0 :=
  snapshot_idempotence_and_division_safety (PlayerStats.init "1" 0)
    2 3 5 6 6 20 rfl le_rfl

/-- Is a driver operation a TCP-probe activity? -/
def isTcpProbe : ClientOp → Bool
  | .tcpProbe _ _ => true
  | _ => false

/-- Is a driver operation a TCP probe in which `connect_ex` succeeded and a
later step raised — the execution that increments both TCP counters? -/
def isTcpDualIncrement : ClientOp → Bool
  | .tcpProbe _ (.sendRaised _) => true
  | _ => false

/-- How much one `_test_tcp_connection` execution adds to
`tcp_connections + tcp_failed`. -/
def tcpIncrements : TcpOutcome → ℕ
  | .sendRaised _ => 2
  | _ => 1

/-- C8 counterexample: a TCP probe in which `connect_ex` returns 0 and the
subsequent `send` raises increments **both** counters — `tcp_connections`
(before the raise) and `tcp_failed` (in the `except` handler) — so a single
attempted probe yields counter sum 2, not 1. -/
theorem tcp_probe_double_increment :
    (testTcpConnection (PlayerStats.init "1" 0) 21
      (.sendRaised "timed out")).stats.tcp_connections = 1 ∧
    (testTcpConnection (PlayerStats.init "1" 0) 21
      (.sendRaised "timed out")).stats.tcp_failed = 1 ∧
    (testTcpConnection (PlayerStats.init "1" 0) 21
        (.sendRaised "timed out")).stats.tcp_connections +
      (testTcpConnection (PlayerStats.init "1" 0) 21
        (.sendRaised "timed out")).stats.tcp_failed ≠ 1 :=
  ⟨rfl, rfl, by decide⟩

/-- One driver operation adds to `tcp_connections + tcp_failed` exactly the
number of probes it contains plus one more when it is a dual-increment
probe. -/
theorem applyOp_tcp_accounting (s : PlayerStats) (op : ClientOp) :
    (applyOp s op).tcp_connections + (applyOp s op).tcp_failed =
      s.tcp_connections + s.tcp_failed +
        (if isTcpProbe op then 1 else 0) +
        (if isTcpDualIncrement op then 1 else 0) := by
  cases op with
  | udpSend port data outcome =>
      cases outcome <;>
        simp [applyOp, sendUdpPacket, isTcpProbe, isTcpDualIncrement]
  | tcpProbe port outcome =>
      cases outcome <;>
        simp [applyOp, testTcpConnection, isTcpProbe, isTcpDualIncrement] <;>
        omega
  | pingSuccess now rtt =>
      simp [applyOp, PlayerStats.record_ping, isTcpProbe, isTcpDualIncrement]
  | pingFailure =>
      simp [applyOp, PlayerStats.append_failed_ping, isTcpProbe,
        isTcpDualIncrement]
  | snapshot now =>
      simp [applyOp, PlayerStats.record_throughput_snapshot, isTcpProbe,
        isTcpDualIncrement]
  | activityError msg =>
      simp [applyOp, isTcpProbe, isTcpDualIncrement]

/-- Over a whole run, the TCP counter sum equals the number of probes plus the
number of dual-increment probes. -/
theorem runOps_tcp_accounting (s : PlayerStats) (ops : List ClientOp) :
    (runOps s ops).tcp_connections + (runOps s ops).tcp_failed =
      s.tcp_connections + s.tcp_failed +
        (ops.filter isTcpProbe).length +
        (ops.filter isTcpDualIncrement).length := by
  induction ops generalizing s with
  | nil => simp [runOps]
  | cons op rest ih =>
    have hrun : runOps s (op :: rest) = runOps (applyOp s op) rest := rfl
    rw [hrun, ih (applyOp s op)]
    have hstep := applyOp_tcp_accounting s op
    by_cases hp : isTcpProbe op = true <;>
      by_cases hd : isTcpDualIncrement op = true <;>
      simp [List.filter_cons, hp, hd] at hstep ⊢ <;> omega

/-- C8 amended: every TCP-probe execution increments at least one of the two
counters — exactly one in the exception-free cases (`tcp_connections` on a
successful connect, `tcp_failed` on a refused connect or an exception raised
before the connect succeeded) — but when an exception is raised after
`connect_ex` succeeded, both are incremented; hence over any run,
`tcp_connections + tcp_failed` equals the number of TCP-probe activities
attempted plus the number of such exception-after-connect executions. -/
theorem tcp_accounting_amended (pid : String) (t0 : ℚ) (ops : List ClientOp)
    (s' : PlayerStats) (port : ℕ) (o : TcpOutcome) :
    ((runOps (PlayerStats.init pid t0) ops).tcp_connections +
        (runOps (PlayerStats.init pid t0) ops).tcp_failed =
      (ops.filter isTcpProbe).length +
        (ops.filter isTcpDualIncrement).length) ∧
    ((testTcpConnection s' port o).stats.tcp_connections +
        (testTcpConnection s' port o).stats.tcp_failed =
      s'.tcp_connections + s'.tcp_failed + tcpIncrements o) := by
  constructor
  · have := runOps_tcp_accounting (PlayerStats.init pid t0) ops
    simpa [PlayerStats.init] using this
  · cases o <;> simp [testTcpConnection, tcpIncrements] <;> omega

/-- C9 counterexample: two distinct connection identities bind the same
shutdown-listener port — the two sub-connections `"1-1"` and `"1-2"` of
logical player 1 (exactly as spawned by the fleet coordinator) both compute
port 7779, and so do the distinct players `"1"` and `"11"`. -/
theorem shutdown_port_collision :
    shutdownListenPort ['1', '-', '1'] = shutdownListenPort ['1', '-', '2'] ∧
    (['1', '-', '1'] : List Char) ≠ ['1', '-', '2'] ∧
    shutdownListenPort ['1'] = shutdownListenPort ['1', '1'] ∧
    (['1'] : List Char) ≠ ['1', '1'] ∧
    shutdownListenPort ['1', '-', '1'] = 7779 := by
  refine ⟨by decide, by decide, by decide, by decide, by decide⟩

/-- C9 amended: the shutdown listener's UDP port is computed deterministically
from the connection's player number as `7778 + (player_num % 10)` — the
numeric prefix of the identity before the first `'-'`, falling back to 1 —
and always lies in 7778–7787; but the selection does **not** ensure
distinctness: any two identities whose player numbers are congruent modulo
10, in particular all sub-connections of one logical player, bind the same
port (the listener sets `SO_REUSEADDR` to tolerate this). -/
theorem shutdown_port_assignment_amended (pid p q : List Char) :
    shutdownListenPort pid = 7778 + parsePlayerNum pid % 10 ∧
    7778 ≤ shutdownListenPort pid ∧
    shutdownListenPort pid ≤ 7787 ∧
    (parsePlayerNum p % 10 = parsePlayerNum q % 10 →
      shutdownListenPort p = shutdownListenPort q) := by
  refine ⟨rfl, Nat.le_add_right _ _, ?_, ?_⟩
  · have h : parsePlayerNum pid % 10 < 10 := Nat.mod_lt _ (by omega)
    simp only [shutdownListenPort]
    omega
  · intro h
    simp only [shutdownListenPort, h]

/-- C9 amended witness: sub-connection `"1-1"` of player 1 and the distinct
player `"21"` have player numbers congruent mod 10 and indeed receive the
same port. -/
theorem shutdown_port_assignment_witness :
    shutdownListenPort ['3'] = 7778 + parsePlayerNum ['3'] % 10 ∧
    7778 ≤ shutdownListenPort ['3'] ∧
    shutdownListenPort ['3'] ≤ 7787 ∧
    shutdownListenPort ['1', '-', '1'] = shutdownListenPort ['2', '1'] := by
  have h := shutdown_port_assignment_amended ['3'] ['1', '-', '1'] ['2', '1']
  exact ⟨h.1, h.2.1, h.2.2.1, h.2.2.2 (by decide)⟩

/-- No driver operation ever touches `udp_timeouts`. -/
theorem applyOp_udp_timeouts (s : PlayerStats) (op : ClientOp) :
    (applyOp s op).udp_timeouts = s.udp_timeouts := by
  cases op with
  | udpSend port data outcome => cases outcome <;> rfl
  | tcpProbe port outcome => cases outcome <;> rfl
  | pingSuccess now rtt => rfl
  | pingFailure => rfl
  | snapshot now => rfl
  | activityError msg => rfl

/-- Every driver operation preserves `udp_responses = udp_packets_sent`: the
only operation touching either counter is the successful UDP send, which bumps
both together. -/
theorem applyOp_udp_optimism (s : PlayerStats) (op : ClientOp)
    (h : s.udp_responses = s.udp_packets_sent) :
    (applyOp s op).udp_responses = (applyOp s op).udp_packets_sent := by
  cases op with
  | udpSend port data outcome =>
      cases outcome <;> simp [applyOp, sendUdpPacket, h]
  | tcpProbe port outcome =>
      cases outcome <;> simpa [applyOp, testTcpConnection] using h
  | pingSuccess now rtt => simpa [applyOp, PlayerStats.record_ping] using h
  | pingFailure => simpa [applyOp, PlayerStats.append_failed_ping] using h
  | snapshot now =>
      simpa [applyOp, PlayerStats.record_throughput_snapshot] using h
  | activityError msg => simpa [applyOp] using h

/-- Over a whole run from a fresh stats object, the UDP counters stay
optimistic: responses mirror sends and timeouts stay zero. -/
theorem runOps_udp_optimism (s : PlayerStats) (ops : List ClientOp)
    (h : s.udp_responses = s.udp_packets_sent) :
    (runOps s ops).udp_responses = (runOps s ops).udp_packets_sent ∧
    (runOps s ops).udp_timeouts = s.udp_timeouts := by
  induction ops generalizing s with
  | nil => exact ⟨h, rfl⟩
  | cons op rest ih =>
    have hstep := ih (applyOp s op) (applyOp_udp_optimism s op h)
    exact ⟨hstep.1, hstep.2.trans (applyOp_udp_timeouts s op)⟩

/-- The statistics of a fleet of connections, each produced by its own driver
run over a fresh stats object (`GameClientManager` keeps one `GameClient`,
hence one `PlayerStats`, per spawned connection). -/
def fleetStats (runs : List (String × ℚ × List ClientOp)) : List PlayerStats :=
  runs.map fun r => runOps (PlayerStats.init r.1 r.2.1) r.2.2

/-- Across a fleet of driver runs, the summed response counter equals the
summed sent counter. -/
theorem fleetStats_responses_eq_sent
    (runs : List (String × ℚ × List ClientOp)) :
    ((fleetStats runs).map PlayerStats.udp_responses).sum =
      ((fleetStats runs).map PlayerStats.udp_packets_sent).sum := by
  unfold fleetStats
  induction runs with
  | nil => rfl
  | cons r rest ih =>
    have h := runOps_udp_optimism (PlayerStats.init r.1 r.2.1) r.2.2 rfl
    simp only [List.map_cons, List.sum_cons] at ih ⊢
    rw [h.1, ih]

/-- C10: every successful UDP send increments `udp_packets_sent` and
`udp_responses` together, no operation ever increments `udp_timeouts`, so
after any driver run `udp_responses = udp_packets_sent` and
`udp_timeouts = 0`; consequently the fleet report's UDP success rate is 100%
whenever any packet was sent. -/
theorem optimistic_udp_counters (pid : String) (t0 : ℚ) (ops : List ClientOp)
    (s' : PlayerStats) (port : ℕ) (data : String)
    (runs : List (String × ℚ × List ClientOp))
    (hpos : 0 < ((fleetStats runs).map PlayerStats.udp_packets_sent).sum) :
    (sendUdpPacket s' port data .ok).stats.udp_packets_sent =
      s'.udp_packets_sent + 1 ∧
    (sendUdpPacket s' port data .ok).stats.udp_responses =
      s'.udp_responses + 1 ∧
    (runOps (PlayerStats.init pid t0) ops).udp_responses =
      (runOps (PlayerStats.init pid t0) ops).udp_packets_sent ∧
    (runOps (PlayerStats.init pid t0) ops).udp_timeouts = 0 ∧
    udpSuccessRate (fleetStats runs) = 100 := by
  have hrun := runOps_udp_optimism (PlayerStats.init pid t0) ops rfl
  refine ⟨rfl, rfl, hrun.1, hrun.2, ?_⟩
  have hsum := fleetStats_responses_eq_sent runs
  have hne : (((fleetStats runs).map PlayerStats.udp_packets_sent).sum : ℚ) ≠ 0 := by
    exact_mod_cast Nat.pos_iff_ne_zero.mp hpos
  simp only [udpSuccessRate, hsum, hpos, if_pos]
  rw [div_self hne]
  norm_num

/-- C10 witness: a fleet of one connection that performed a single successful
UDP send reports success rate exactly 100. -/
theorem optimistic_udp_counters_witness :
    (sendUdpPacket (PlayerStats.init "2" 0) 9696 "x" .ok).stats.udp_packets_sent =
      (PlayerStats.init "2" 0).udp_packets_sent + 1 ∧
    (sendUdpPacket (PlayerStats.init "2" 0) 9696 "x" .ok).stats.udp_responses =
      (PlayerStats.init "2" 0).udp_responses + 1 ∧
    (runOps (PlayerStats.init "1" 0) []).udp_responses =
      (runOps (PlayerStats.init "1" 0) []).udp_packets_sent ∧
    (runOps (PlayerStats.init "1" 0) []).udp_timeouts = 0 ∧
    udpSuccessRate (fleetStats [("1", 0, [.udpSend 9696 "x" .ok])]) = 100 :=
  optimistic_udp_counters "1" 0 [] (PlayerStats.init "2" 0) 9696 "x"
    [("1", 0, [.udpSend 9696 "x" .ok])]
    (by
      show 0 < ((fleetStats [("1", 0, [ClientOp.udpSend 9696 "x" .ok])]).map
        PlayerStats.udp_packets_sent).sum
      have h1 : ((fleetStats [("1", 0, [ClientOp.udpSend 9696 "x" .ok])]).map
          PlayerStats.udp_packets_sent).sum =
          (runOps (PlayerStats.init "1" 0)
            [ClientOp.udpSend 9696 "x" .ok]).udp_packets_sent := by
        simp [fleetStats]
      rw [h1]
      show 0 < (sendUdpPacket (PlayerStats.init "1" 0) 9696 "x" .ok).stats.udp_packets_sent
      simp [sendUdpPacket, PlayerStats.init])

end TusFw
